import Mathlib

/-!
Verification development for the telegram_bot repository.

This file shallowly embeds the parts of the Go sources that the checked
properties are about:

* `internal/wizard` — the wizard session state machine, its per-content-type
  step lists and prompt builders, the session manager with lazy timeout, and
  the `ParseFlags` command-flag parser.
* `internal/minimax` — per-user `Conversation` stores and the `Client.Chat`
  request assembly (the HTTP transport is abstracted as an oracle from
  requests to responses).
* `internal/handler` — rate limiting, the processing guard, outgoing-message
  truncation, and the free-text dispatch flow of `handleMessage`.

Conventions: Go `int64` user/chat ids and timestamps are modeled as `Int`
(durations and instants share one abstract unit); Go `int` step counters that
are only initialised to 0 and incremented are `Nat`; Go maps with zero-value
reads are total functions with the zero value as default; Go `float64`
generation parameters are `ℚ` (the only operations used on them are exact:
comparison with 0 and copying, so rationals are faithful); fallible or
panicking code returns an explicit result type.  Mutexes are not modeled
except in `Manager.getWizard`, whose (sequential, deterministic) lock
usage decides one of the properties; there the reader-lock depth is tracked
explicitly in comments and the resulting fatal error is made explicit.
-/

/-! ### Go string primitives

Go strings are byte strings; Lean strings are lists of `Char`.  The helpers
below work on `String.data` so that they compute by `rfl`/`decide`.  Where the
source indexes by bytes (`len(s)`, `s[2:]`) the byte length is computed with
`Char.utf8Size`, and the places where byte indexing could split a rune are
noted where they are (un)reachable. -/

/-- Model of Go `strings.HasPrefix`. -/
def goStartsWith (s p : String) : Bool :=
  p.data.isPrefixOf s.data

/-- Model of Go `strings.TrimPrefix`: when `p` is a prefix of `s`, Go drops
`len(p)` bytes, which is exactly the first `p.data.length` characters. -/
def goTrimStart (s p : String) : String :=
  if goStartsWith s p then ⟨s.data.drop p.data.length⟩ else s

/-- Model of Go `len(s)`: the UTF-8 byte length. -/
def goLen (s : String) : Nat :=
  s.data.foldl (fun n c => n + c.utf8Size) 0

/-- Helper for `goFields`: splits a character list at whitespace runs,
accumulating the current (reversed) word. -/
def goFieldsAux : List Char → List Char → List String
  | [], [] => []
  | [], acc => [⟨acc.reverse⟩]
  | c :: cs, acc =>
    if c.isWhitespace then
      match acc with
      | [] => goFieldsAux cs []
      | _ => ⟨acc.reverse⟩ :: goFieldsAux cs []
    else goFieldsAux cs (c :: acc)

/-- Model of Go `strings.Fields`: the whitespace-separated words of `s`. -/
def goFields (s : String) : List String :=
  goFieldsAux s.data []

/-- Helper for `goSplitEq2`: split a character list at the first `=`. -/
def goSplitEqAux : List Char → List Char → List String
  | [], acc => [⟨acc.reverse⟩]
  | c :: cs, acc =>
    if c = '=' then [⟨acc.reverse⟩, ⟨cs⟩] else goSplitEqAux cs (c :: acc)

/-- Model of Go `strings.SplitN(s, "=", 2)`. -/
def goSplitEq2 (s : String) : List String :=
  goSplitEqAux s.data []

/-! ### Wizard sessions (`internal/wizard`, src/unnamed/part_001)

Go declares `type ContentType string`; any string is a legal content type, so
content types are plain `String`s here.  `Wizard.Answers` is a Go
`map[string]string`, modeled as a total function with the zero value `""` for
missing keys — exactly what the prompt builders observe via `answers[key]`.
`Step` is a Go `int` that is only initialised to 0 and incremented, so `Nat`
is faithful.  The `Validate` field of `WizardStep` is never set anywhere in
the repository and is omitted. -/

/-- One wizard question (source `WizardStep`, minus the never-used
`Validate` function field). -/
structure WStep where
  key : String
  question : String
deriving Repr, DecidableEq

/-- A wizard session (source struct `Wizard`; the mutex is not part of the
data). -/
structure Wizard where
  userID : Int
  contentType : String
  answers : String → String
  step : Nat
  startedAt : Int

/-- Source `GetMarketingSteps`. -/
def getMarketingSteps : List WStep :=
  [⟨"website_name", "What is the name of your website or business?"⟩,
   ⟨"website_url", "What is the URL of your website?"⟩,
   ⟨"target_audience", "Who is your target audience? (e.g., small business owners, tech enthusiasts)"⟩,
   ⟨"key_benefits", "What are the key benefits or features of your product/service?"⟩,
   ⟨"tone", "What tone would you like? (e.g., professional, friendly, urgent, humorous)"⟩,
   ⟨"length", "What length would you like? (short/medium/long)"⟩,
   ⟨"topic", "What specific topic or angle should the marketing copy focus on?"⟩,
   ⟨"cta", "What call-to-action should be included? (e.g., Sign up now, Learn more, Contact us)"⟩]

/-- Source `GetEmailSteps`. -/
def getEmailSteps : List WStep :=
  [⟨"subject", "What is the subject line of the email?"⟩,
   ⟨"recipient", "Who is the recipient? (e.g., potential customers, existing clients)"⟩,
   ⟨"purpose", "What is the purpose of this email? (e.g., newsletter, promotion, announcement)"⟩,
   ⟨"tone", "What tone would you like? (e.g., formal, casual, friendly)"⟩,
   ⟨"key_message", "What is the key message or offer you want to convey?"⟩,
   ⟨"cta", "What action should the recipient take? (e.g., Click here, Reply, Visit)"⟩]

/-- Source `GetReportSteps`. -/
def getReportSteps : List WStep :=
  [⟨"title", "What is the title of the report?"⟩,
   ⟨"audience", "Who is the target audience for this report?"⟩,
   ⟨"topic", "What is the main topic or subject of the report?"⟩,
   ⟨"scope", "What is the scope of the report? (e.g., industry analysis, market research)"⟩,
   ⟨"key_points", "What are the key points or findings to include?"⟩,
   ⟨"length", "What length would you like? (brief/medium/comprehensive)"⟩,
   ⟨"format", "What format would you prefer? (e.g., executive summary, detailed analysis)"⟩]

/-- Source `GetScriptSteps`. -/
def getScriptSteps : List WStep :=
  [⟨"type", "What type of script? (e.g., video, podcast, advertisement)"⟩,
   ⟨"topic", "What is the main topic or subject?"⟩,
   ⟨"duration", "What is the desired duration? (e.g., 30 seconds, 5 minutes)"⟩,
   ⟨"audience", "Who is the target audience?"⟩,
   ⟨"tone", "What tone would you like? (e.g., serious, humorous, inspirational)"⟩,
   ⟨"key_message", "What is the key message to convey?"⟩,
   ⟨"cta", "What call-to-action should be included?"⟩]

/-- Source `GetWhitepaperSteps`. -/
def getWhitepaperSteps : List WStep :=
  [⟨"title", "What is the title of the whitepaper?"⟩,
   ⟨"topic", "What is the main topic or research question?"⟩,
   ⟨"audience", "Who is the target audience?"⟩,
   ⟨"problem", "What problem or challenge does it address?"⟩,
   ⟨"solution", "What is the proposed solution or findings?"⟩,
   ⟨"length", "What length would you like? (short/medium/long)"⟩,
   ⟨"tone", "What tone would you like? (e.g., academic, professional, accessible)"⟩]

/-- Source `GetStorySteps`. -/
def getStorySteps : List WStep :=
  [⟨"genre", "What genre? (e.g., sci-fi, fantasy, romance, mystery, literary)"⟩,
   ⟨"premise", "What is the premise or plot idea?"⟩,
   ⟨"characters", "Describe the main characters (optional):"⟩,
   ⟨"setting", "What is the setting? (e.g., modern city, medieval kingdom, space station)"⟩,
   ⟨"tone", "What tone? (e.g., dark, uplifting, suspenseful, humorous)"⟩,
   ⟨"length", "What length? (short story/novella/novel excerpt)"⟩]

/-- Source `GetPoemSteps`. -/
def getPoemSteps : List WStep :=
  [⟨"style", "What style of poem? (e.g., haiku, sonnet, free verse, limerick, ballad)"⟩,
   ⟨"topic", "What is the topic or theme?"⟩,
   ⟨"mood", "What mood? (e.g., melancholy, joyful, reflective, romantic)"⟩,
   ⟨"length", "How many lines? (e.g., 4, 8, 16, 32)"⟩,
   ⟨"structure", "Any specific structure or rhyming scheme? (optional)"⟩]

/-- Source `GetSteps`: the Go `switch` returns `nil` (here `none`) for any
content type outside the seven defined tags. -/
def getSteps (contentType : String) : Option (List WStep) :=
  if contentType = "marketing" then some getMarketingSteps
  else if contentType = "email" then some getEmailSteps
  else if contentType = "report" then some getReportSteps
  else if contentType = "script" then some getScriptSteps
  else if contentType = "whitepaper" then some getWhitepaperSteps
  else if contentType = "story" then some getStorySteps
  else if contentType = "poem" then some getPoemSteps
  else none

/-- Source `Manager.StartWizard` (the fresh session it stores and returns):
a session at step 0 with an empty answers map, stamped with the start time. -/
def startWizard (userID : Int) (contentType : String) (now : Int) : Wizard :=
  { userID := userID
    contentType := contentType
    answers := fun _ => ""
    step := 0
    startedAt := now }

/-- Source `Wizard.SetAnswer`: records the answer under `key` and increments
the step index. -/
def Wizard.setAnswer (w : Wizard) (key value : String) : Wizard :=
  { w with
    answers := fun k => if k = key then value else w.answers k
    step := w.step + 1 }

/-- Source `Wizard.GetStep`. -/
def Wizard.getStep (w : Wizard) : Nat :=
  w.step

/-- Source `Wizard.GetAnswer`. -/
def Wizard.getAnswer (w : Wizard) (key : String) : String :=
  w.answers key

/-- Source `Wizard.GetAnswers` (returns a copy of the map; copying is
identity in this pure model). -/
def Wizard.getAnswers (w : Wizard) : String → String :=
  w.answers

/-- Source `Wizard.GetCurrentKey`: empty when the step list is `nil` or the
index is out of range, otherwise `steps[step].Key`. -/
def Wizard.getCurrentKey (w : Wizard) : String :=
  match getSteps w.contentType with
  | none => ""
  | some steps =>
    if steps.length ≤ w.step then "" else (steps.getD w.step ⟨"", ""⟩).key

/-- Source `Wizard.GetCurrentQuestion`. -/
def Wizard.getCurrentQuestion (w : Wizard) : String :=
  match getSteps w.contentType with
  | none => ""
  | some steps =>
    if steps.length ≤ w.step then "" else (steps.getD w.step ⟨"", ""⟩).question

/-- Source `Wizard.IsComplete`: trivially true when the step list is `nil`,
otherwise true once the step index reaches the number of steps. -/
def Wizard.isComplete (w : Wizard) : Bool :=
  match getSteps w.contentType with
  | none => true
  | some steps => decide (steps.length ≤ w.step)

/-! ### Prompt builders (source `buildMarketingPrompt` … `buildPoemPrompt`)

Each builder renders `fmt.Sprintf` with a fixed template; the `%s` holes are
string concatenation.  `Wizard.buildPrompt` mirrors the `switch` in source
`BuildPrompt`, returning `""` for unknown content types. -/

/-- Source `buildMarketingPrompt`. -/
def buildMarketingPrompt (a : String → String) : String :=
  "Create marketing copy with the following details:\n\nWebsite/Business: " ++ a "website_name" ++
  "\nURL: " ++ a "website_url" ++
  "\nTarget Audience: " ++ a "target_audience" ++
  "\nKey Benefits: " ++ a "key_benefits" ++
  "\nTone: " ++ a "tone" ++
  "\nLength: " ++ a "length" ++
  "\nTopic/Angle: " ++ a "topic" ++
  "\nCall-to-Action: " ++ a "cta" ++
  "\n\nPlease create compelling marketing copy that incorporates all these elements."

/-- Source `buildEmailPrompt`. -/
def buildEmailPrompt (a : String → String) : String :=
  "Write an email with the following details:\n\nSubject: " ++ a "subject" ++
  "\nRecipient: " ++ a "recipient" ++
  "\nPurpose: " ++ a "purpose" ++
  "\nTone: " ++ a "tone" ++
  "\nKey Message: " ++ a "key_message" ++
  "\nCall-to-Action: " ++ a "cta" ++
  "\n\nPlease create a complete email incorporating all these elements."

/-- Source `buildReportPrompt`. -/
def buildReportPrompt (a : String → String) : String :=
  "Create a report with the following details:\n\nTitle: " ++ a "title" ++
  "\nTarget Audience: " ++ a "audience" ++
  "\nTopic: " ++ a "topic" ++
  "\nScope: " ++ a "scope" ++
  "\nKey Points: " ++ a "key_points" ++
  "\nLength: " ++ a "length" ++
  "\nFormat: " ++ a "format" ++
  "\n\nPlease create a comprehensive report incorporating all these elements."

/-- Source `buildScriptPrompt`. -/
def buildScriptPrompt (a : String → String) : String :=
  "Write a script with the following details:\n\nType: " ++ a "type" ++
  "\nTopic: " ++ a "topic" ++
  "\nDuration: " ++ a "duration" ++
  "\nTarget Audience: " ++ a "audience" ++
  "\nTone: " ++ a "tone" ++
  "\nKey Message: " ++ a "key_message" ++
  "\nCall-to-Action: " ++ a "cta" ++
  "\n\nPlease create a complete script incorporating all these elements."

/-- Source `buildWhitepaperPrompt`. -/
def buildWhitepaperPrompt (a : String → String) : String :=
  "Create a whitepaper with the following details:\n\nTitle: " ++ a "title" ++
  "\nTopic: " ++ a "topic" ++
  "\nTarget Audience: " ++ a "audience" ++
  "\nProblem/Challenge: " ++ a "problem" ++
  "\nSolution/Findings: " ++ a "solution" ++
  "\nLength: " ++ a "length" ++
  "\nTone: " ++ a "tone" ++
  "\n\nPlease create a comprehensive whitepaper incorporating all these elements."

/-- Source `buildStoryPrompt`. -/
def buildStoryPrompt (a : String → String) : String :=
  "Write a story with the following details:\n\nGenre: " ++ a "genre" ++
  "\nPremise: " ++ a "premise" ++
  "\nCharacters: " ++ a "characters" ++
  "\nSetting: " ++ a "setting" ++
  "\nTone: " ++ a "tone" ++
  "\nLength: " ++ a "length" ++
  "\n\nPlease create an engaging story incorporating all these elements."

/-- Source `buildPoemPrompt`. -/
def buildPoemPrompt (a : String → String) : String :=
  "Write a poem with the following details:\n\nStyle: " ++ a "style" ++
  "\nTopic: " ++ a "topic" ++
  "\nMood: " ++ a "mood" ++
  "\nLength: " ++ a "length" ++
  " lines\nStructure: " ++ a "structure" ++
  "\n\nPlease create a poem incorporating all these elements."

/-- Source `Wizard.BuildPrompt`: dispatches on the content type over the
collected answers; the `switch` default returns `""`. -/
def Wizard.buildPrompt (w : Wizard) : String :=
  if w.contentType = "marketing" then buildMarketingPrompt w.getAnswers
  else if w.contentType = "email" then buildEmailPrompt w.getAnswers
  else if w.contentType = "report" then buildReportPrompt w.getAnswers
  else if w.contentType = "script" then buildScriptPrompt w.getAnswers
  else if w.contentType = "whitepaper" then buildWhitepaperPrompt w.getAnswers
  else if w.contentType = "story" then buildStoryPrompt w.getAnswers
  else if w.contentType = "poem" then buildPoemPrompt w.getAnswers
  else ""

/-! ### Wizard session manager (source `Manager`)

`Manager.sessions` is a `map[int64]*Wizard`, modeled as a total function to
`Option Wizard`.  `GetWizard` is embedded together with the observable effect
of its lock handling, because that effect is deterministic and sequential:

```
m.mu.RLock()                      // reader depth 0 → 1
defer m.mu.RUnlock()
wizard, exists := m.sessions[userID]
if !exists { return nil, false }  // deferred RUnlock: depth 1 → 0, fine
if time.Since(wizard.StartedAt) > m.timeout {
    m.mu.RUnlock()                // depth 1 → 0
    m.mu.Lock(); delete(m.sessions, userID); m.mu.Unlock()
    return nil, false             // deferred RUnlock runs at depth 0:
}                                 //   fatal "sync: RUnlock of unlocked RWMutex"
return wizard, true               // deferred RUnlock: depth 1 → 0, fine
```

In the expired branch the deferred `RUnlock` fires after the explicit
`RUnlock`/`Lock`/`Unlock` sequence, on a mutex that is no longer read-locked;
Go's `sync` package makes that a fatal runtime error, unconditionally and
before the computed return values reach the caller.  The session has already
been deleted at that point. -/

/-- Outcome of running a Go function that can hit a fatal runtime error. -/
inductive GoResult (α : Type) where
  | ok : α → GoResult α
  | fatal : String → GoResult α
deriving Repr

/-- Source `Manager` (mutex omitted; `sessions` is the keyed map). -/
structure Manager where
  sessions : Int → Option Wizard
  timeout : Int

/-- Source `NewManager`. -/
def newManager (timeout : Int) : Manager :=
  { sessions := fun _ => none, timeout := timeout }

/-- Source `Manager.StartWizard`: stores a fresh session for the user
(overwriting any prior one) and returns it. -/
def Manager.startWizard (m : Manager) (userID : Int) (contentType : String)
    (now : Int) : Manager × Wizard :=
  let w : Wizard :=
    { userID := userID
      contentType := contentType
      answers := fun _ => ""
      step := 0
      startedAt := now }
  ({ m with sessions := fun u => if u = userID then some w else m.sessions u }, w)

/-- Source `Manager.GetWizard` at time `now`, including the deterministic
effect of its unbalanced `RUnlock` in the expired branch (see the section
comment): the expired branch deletes the session and then dies with a fatal
runtime error instead of returning `(nil, false)`. -/
def Manager.getWizard (m : Manager) (userID : Int) (now : Int) :
    GoResult (Option Wizard × Bool) × Manager :=
  match m.sessions userID with
  | none => (GoResult.ok (none, false), m)
  | some w =>
    if m.timeout < now - w.startedAt then
      (GoResult.fatal "sync: RUnlock of unlocked RWMutex",
       { m with sessions := fun u => if u = userID then none else m.sessions u })
    else
      (GoResult.ok (some w, true), m)

/-- Source `Manager.EndWizard` (and `CancelWizard`, its alias): removes the
session unconditionally. -/
def Manager.endWizard (m : Manager) (userID : Int) : Manager :=
  { m with sessions := fun u => if u = userID then none else m.sessions u }

/-! ### Flag parsing (source `ParseFlags`, src/unnamed/part_001 lines 602-667)

`flags` is a Go `map[string]string`, modeled as a total function with default
`""`.  The source makes three passes: a token loop (with a `collectArgs` mode
entered by a bare `-`), a second pass pairing `-flag value` items left in
`remaining` (whose `i++` inside the body skips the consumed value), and a
final scan taking the first non-dash token as the positional argument.

Byte/char caveat: `flagValue` returns `s[2:]` (a byte slice) when `s` starts
with `-` and has byte length > 2; its call site is only reached for tokens
that do *not* start with `-` (those were consumed by the two branches above
it), where `flagValue` returns `""`, so the byte slice is dead code and the
char-based `drop 2` here is observationally equal. -/

/-- Source helper `flagValue`. -/
def flagValue (s : String) : String :=
  if goStartsWith s "-" && decide (2 < goLen s) then ⟨s.data.drop 2⟩ else ""

/-- Update a Go `map[string]string` (total function, default `""`). -/
def putFlag (flags : String → String) (k v : String) : String → String :=
  fun x => if x = k then v else flags x

/-- First pass of `ParseFlags`: the token loop over `strings.Fields`, with
the `collectArgs` mode and the (dead, see above) `=`-splitting branch. -/
def parseFlagsLoop : List String → Bool → (String → String) → List String →
    ((String → String) × List String)
  | [], _, flags, remaining => (flags, remaining)
  | part :: parts, collectArgs, flags, remaining =>
    if collectArgs then
      parseFlagsLoop parts collectArgs flags (remaining ++ [part])
    else if goStartsWith part "-" && decide (1 < goLen part) then
      parseFlagsLoop parts collectArgs (putFlag flags (goTrimStart part "-") "true") remaining
    else if goStartsWith part "-" && decide (goLen part = 1) then
      parseFlagsLoop parts true flags remaining
    else if 0 < goLen (flagValue part) then
      match goSplitEq2 part with
      | [k, v] => parseFlagsLoop parts collectArgs (putFlag flags k v) remaining
      | _ => parseFlagsLoop parts collectArgs flags (remaining ++ [part])
    else
      parseFlagsLoop parts collectArgs flags (remaining ++ [part])

/-- Second pass of `ParseFlags`: the indexed `-flag value` loop over
`remaining`; the body's `i++` after consuming a value makes the loop skip it,
and the `i < len(remaining)-1` bound means a trailing token is never treated
as a flag name. -/
def parseFlagsPairs : List String → (String → String) → (String → String)
  | a :: b :: rest, flags =>
    if goStartsWith a "-" then
      parseFlagsPairs rest (putFlag flags (goTrimStart a "-") b)
    else
      parseFlagsPairs (b :: rest) flags
  | _, flags => flags

/-- Final scan of `ParseFlags`: the first token of `remaining` not starting
with `-` (Go's zero value `""` if none). -/
def firstNonFlag : List String → String
  | [] => ""
  | part :: parts => if goStartsWith part "-" then firstNonFlag parts else part

/-- Source `ParseFlags`. -/
def parseFlags (input : String) : (String → String) × String :=
  let input := goTrimStart input "/"
  let parts := goFields input
  let (flags, remaining) := parseFlagsLoop parts false (fun _ => "") []
  let flags := if 2 ≤ remaining.length then parseFlagsPairs remaining flags else flags
  (flags, firstNonFlag remaining)

/-! ### Minimax client (`internal/minimax/client.go`)

`Message.Name` is carried for structural fidelity; no modeled code path ever
sets it, so it is `""` throughout.  The per-user conversation map is a total
function to `Option Conversation`.  `doRequest` plus JSON decoding is
abstracted as a deterministic oracle `ChatRequest → Except String ChatResponse`
(the `Stop` request field is never set anywhere in the repository and is
omitted; `Stream` is carried because `Chat` leaves it false). -/

/-- Source `minimax.Message`. -/
structure MMessage where
  role : String
  content : String
  name : String
deriving Repr, DecidableEq

/-- Source `minimax.Conversation` (mutex omitted). -/
structure Conversation where
  messages : List MMessage
  system : String
deriving Repr, DecidableEq

/-- Source `Conversation.AddMessage`: appends `{role, content}` (the `Name`
field is left at its zero value, as in the source literal). -/
def Conversation.addMessage (c : Conversation) (role content : String) : Conversation :=
  { c with messages := c.messages ++ [⟨role, content, ""⟩] }

/-- Source `Conversation.GetMessages`: returns a copy of the history in
insertion order (copying is identity in this pure model; the source copy is
what makes the returned slice independent of later mutation). -/
def Conversation.getMessages (c : Conversation) : List MMessage :=
  c.messages

/-- Source `Conversation.Clear`: empties the history, leaving the system
prompt untouched. -/
def Conversation.clear (c : Conversation) : Conversation :=
  { c with messages := [] }

/-- Source `Conversation.SetSystem`. -/
def Conversation.setSystem (c : Conversation) (system : String) : Conversation :=
  { c with system := system }

/-- The `conversations` map of source `minimax.Client`. -/
def ConversationMap : Type := Int → Option Conversation

/-- Source `Client.getOrCreateConversation`: returns the stored conversation,
creating an empty one (and storing it) when absent. -/
def getOrCreateConversation (st : ConversationMap) (userID : Int) :
    Conversation × ConversationMap :=
  match st userID with
  | some c => (c, st)
  | none =>
    let c : Conversation := { messages := [], system := "" }
    (c, fun u => if u = userID then some c else st u)

/-- Write back a (mutated-through-pointer) conversation for a user. -/
def putConversation (st : ConversationMap) (userID : Int) (c : Conversation) :
    ConversationMap :=
  fun u => if u = userID then some c else st u

/-- Source `Client.ClearConversation`: deletes the user's entry. -/
def clearConversation (st : ConversationMap) (userID : Int) : ConversationMap :=
  fun u => if u = userID then none else st u

/-- Source `Client.GetConversation`: a copy of the stored history, `nil`
(here `[]`) when absent. -/
def getConversation (st : ConversationMap) (userID : Int) : List MMessage :=
  match st userID with
  | some c => c.getMessages
  | none => []

/-- Source `ChatParams`.  `Messages` is `nil`/non-`nil` in Go, hence an
`Option`; `Temperature`/`TopP` are `float64` (modeled `ℚ`, see the header). -/
structure ChatParams where
  userID : Int
  messages : Option (List MMessage)
  temperature : ℚ
  maxTokens : Int
  topP : ℚ
  clearConv : Bool
  systemPrompt : String

/-- Source `ChatRequest` (the `Stop` field is never set and omitted). -/
structure ChatRequest where
  model : String
  messages : List MMessage
  temperature : ℚ
  maxTokens : Int
  topP : ℚ
  stream : Bool
deriving Repr, DecidableEq

/-- Source `Choice`. -/
structure Choice where
  index : Int
  message : MMessage
  finishReason : String
deriving Repr, DecidableEq

/-- Source `Usage`. -/
structure Usage where
  promptTokens : Int
  completionTokens : Int
  totalTokens : Int
deriving Repr, DecidableEq

/-- Source `ChatResponse` (the id/object/created/model metadata fields play
no role in any modeled flow and are omitted). -/
structure ChatResponse where
  choices : List Choice
  usage : Usage
deriving Repr, DecidableEq

/-- The message-assembly phase of source `Client.Chat` (lines 215-233):
explicit `params.Messages` win; otherwise the user's conversation is fetched
(created if absent), the system prompt applied if supplied, the history
cleared if requested, and its messages used. -/
def assembleMessages (st : ConversationMap) (p : ChatParams) :
    List MMessage × ConversationMap :=
  match p.messages with
  | some ms => (ms, st)
  | none =>
    let gc := getOrCreateConversation st p.userID
    let conv := gc.1
    let conv := if p.systemPrompt ≠ "" then conv.setSystem p.systemPrompt else conv
    let conv := if p.clearConv then conv.clear else conv
    (conv.getMessages, putConversation gc.2 p.userID conv)

/-- Result of one `Client.Chat` call: the conversation map afterwards, the
requests actually handed to the transport (in order), and the returned value. -/
structure ChatOutcome where
  state : ConversationMap
  requests : List ChatRequest
  result : Except String ChatResponse

/-- Source `Client.Chat` with the transport abstracted as `remote`:
assembles messages, rejects an empty list before any request, builds the one
request with defaulted parameters (temperature 0.7 and max tokens 2048 when
the supplied values are not positive; top-p kept only when positive), and on
success appends the first choice to the conversation history — but only when
no explicit `Messages` were supplied. -/
def clientChat (model : String) (remote : ChatRequest → Except String ChatResponse)
    (st : ConversationMap) (p : ChatParams) : ChatOutcome :=
  let msgs := (assembleMessages st p).1
  let st1 := (assembleMessages st p).2
  if msgs.isEmpty then
    { state := st1, requests := [], result := Except.error "no messages provided" }
  else
    let req : ChatRequest :=
      { model := model
        messages := msgs
        temperature := if 0 < p.temperature then p.temperature else 7/10
        maxTokens := if 0 < p.maxTokens then p.maxTokens else 2048
        topP := if 0 < p.topP then p.topP else 0
        stream := false }
    match remote req with
    | Except.error e => { state := st1, requests := [req], result := Except.error e }
    | Except.ok resp =>
      let st2 :=
        match p.messages, resp.choices with
        | none, ch :: _ =>
          let gc := getOrCreateConversation st1 p.userID
          putConversation gc.2 p.userID (gc.1.addMessage "assistant" ch.message.content)
        | _, _ => st1
      { state := st2, requests := [req], result := Except.ok resp }

/-! ### Handler (`internal/handler`, src/unnamed/part_002)

`Handler` state relevant to the modeled flows: the per-user processing flags
and last-message times (Go maps, total functions here; the source's lazy
`make` re-initialisation of a nil map is invisible in this model), the rate
limit, and the minimax client's conversation map.  Timestamps in one dispatch
are taken at a single instant `now` (the source takes `time.Now()` twice a
few statements apart; nothing modeled depends on the difference).  Outbound
sends are recorded as the list of texts handed to the transport, and model
sends always succeed (a send failure only changes which log lines and
best-effort deletes happen, which no checked property mentions). -/

/-- The handler state the modeled flows read and write. -/
structure HState where
  processing : Int → Bool
  lastMessageTime : Int → Option Int
  rateLimit : Int
  client : ConversationMap

/-- Source `Handler.checkRateLimit`: true when the user has no record, else
true iff the elapsed time since the record is at least the rate limit.  The
source only reads under `RLock`; it writes nothing. -/
def checkRateLimit (st : HState) (userID : Int) (now : Int) : Bool :=
  match st.lastMessageTime userID with
  | none => true
  | some last => decide (st.rateLimit ≤ now - last)

/-- Source `Handler.updateRateLimit`: stamps the current time for the user. -/
def updateRateLimit (st : HState) (userID : Int) (now : Int) : HState :=
  { st with lastMessageTime := fun u => if u = userID then some now else st.lastMessageTime u }

/-- Source `Handler.isProcessing`. -/
def isProcessing (st : HState) (userID : Int) : Bool :=
  st.processing userID

/-- Source `Handler.setProcessing`: sets the flag; when clearing it (ending
processing) it additionally stamps the user's rate-limit record with the
current time. -/
def setProcessing (st : HState) (userID : Int) (b : Bool) (now : Int) : HState :=
  let st1 := { st with processing := fun u => if u = userID then b else st.processing u }
  if b then st1
  else { st1 with
         lastMessageTime := fun u => if u = userID then some now else st1.lastMessageTime u }

/-- The truncation step of source `Handler.sendMessage` (lines 276-279),
over the byte string of the outgoing text (Go `len` and slicing are
byte-based; bytes are `Nat` here and `"..."` is three `0x2E` bytes): texts
longer than `maxMessageLength` are cut to its first `maxMessageLength - 3`
bytes followed by `"..."`. -/
def sendTruncate (maxMessageLength : Nat) (text : List Nat) : List Nat :=
  if maxMessageLength < text.length then
    text.take (maxMessageLength - 3) ++ [46, 46, 46]
  else text

/-- Everything observable about one free-text dispatch: the handler state
afterwards, the completion requests issued (in order), the texts sent to the
chat (in order), and the error returned to the update loop. -/
structure DispatchOutcome where
  hstate : HState
  requests : List ChatRequest
  sent : List String
  result : Except String Unit

/-- Source `Handler.handleMessage`, lines 102-163: the free-text flow that a
non-command message reaches when the user has no active wizard session.
In order: the rate-limit check, the processing-guard check, the guard set,
a first `Chat` call handed the user's text as an explicit one-element message
list (its returned response *and error* are discarded), the transient
"thinking" notice, a second `Chat` call over the stored conversation, and
either the error apology or the reply text.  The deferred
`setProcessing(false)` runs on every exit path past the guard set.  The
best-effort `DeleteMessage` of the thinking notice is not modeled (its
failure is only logged). -/
def handleFreeTextMessage (model : String)
    (remote : ChatRequest → Except String ChatResponse)
    (st : HState) (userID : Int) (text : String) (now : Int) :
    DispatchOutcome :=
  if checkRateLimit st userID now = false then
    { hstate := st, requests := [], result := Except.ok ()
      sent := ["Please wait a moment before sending another message."] }
  else if isProcessing st userID then
    { hstate := st, requests := [], result := Except.ok ()
      sent := ["I'm still processing your previous message. Please wait."] }
  else
    let st1 := setProcessing st userID true now
    let o1 := clientChat model remote st1.client
      { userID := userID, messages := some [⟨"user", text, ""⟩]
        temperature := 0, maxTokens := 0, topP := 0
        clearConv := false, systemPrompt := "" }
    let st2 := { st1 with client := o1.state }
    let o2 := clientChat model remote st2.client
      { userID := userID, messages := none
        temperature := 0, maxTokens := 0, topP := 0
        clearConv := false, systemPrompt := "" }
    let st3 := { st2 with client := o2.state }
    match o2.result with
    | Except.error e =>
      { hstate := setProcessing st3 userID false now
        requests := o1.requests ++ o2.requests
        sent := ["🤔 Thinking...", "Sorry, I encountered an error: " ++ e]
        result := Except.error e }
    | Except.ok resp =>
      { hstate := setProcessing st3 userID false now
        requests := o1.requests ++ o2.requests
        sent := "🤔 Thinking..." ::
          (match resp.choices with
           | [] => []
           | ch :: _ => [ch.message.content])
        result := Except.ok () }

/-- The wizard-session effect of the source `/create` command handler
(src/unnamed/part_002 lines 345-395): parse the arguments; with an empty
content type only a help text is sent; otherwise `StartWizard` stores a fresh
session for the user — for *any* non-empty content-type string, recognized or
not, and before (and regardless of) the quick-mode `-t` branch.  Only the
session map is modeled here; the texts and quick-mode completion go to
transports no checked claim mentions. -/
def createCommandSessions (m : Manager) (userID : Int) (args : String)
    (now : Int) : Manager :=
  let contentType := (parseFlags args).2
  if contentType = "" then m
  else (m.startWizard userID contentType now).1

/-- One dispatcher wizard-answer step (source `handleWizardMessage`, lines
166-179): the incoming text is recorded under the current step's key — this
is the session state right after `SetAnswer` returns. -/
def answerMsg (w : Wizard) (text : String) : Wizard :=
  w.setAnswer w.getCurrentKey text

/-- Session states reachable through the dispatcher's wizard flow, at the
granularity of the wizard operations the dispatcher performs.  `Sess w live`
says the session value `w` occurs during the lifetime of the session started
by `startWizard userID ct t0`, and `live` tells whether the session is still
in the manager afterwards: the freshly started session is stored
unconditionally (the `/create` handler never checks completeness), and after
each answer `handleWizardMessage` keeps the session exactly when
`IsComplete()` is still false (otherwise it calls `EndWizard`). -/
inductive Sess (userID : Int) (ct : String) (t0 : Int) : Wizard → Bool → Prop
  | start : Sess userID ct t0 (startWizard userID ct t0) true
  | answer (w : Wizard) (text : String) :
      Sess userID ct t0 w true →
      Sess userID ct t0 (answerMsg w text) (!(answerMsg w text).isComplete)

/-! ### Shared fixtures and helpers for the theorems -/

/-- The empty conversation map (a fresh `Client`). -/
def emptyConvMap : ConversationMap := fun _ => none

/-- A fresh handler state: nobody processing, no rate-limit records, the
source's default 1-unit rate limit, fresh client. -/
def freshHState : HState :=
  { processing := fun _ => false
    lastMessageTime := fun _ => none
    rateLimit := 1
    client := emptyConvMap }

/-- A transport oracle that always answers with one assistant choice. -/
def okRemote : ChatRequest → Except String ChatResponse :=
  fun _ => Except.ok { choices := [⟨0, ⟨"assistant", "hi", ""⟩, "stop"⟩], usage := ⟨1, 1, 2⟩ }

/-- `sub` occurs verbatim (contiguously) inside `s`. -/
def ContainsStr (s sub : String) : Prop :=
  ∃ p q : String, s = p ++ (sub ++ q)

/-- String concatenation is associative (via the underlying character
lists). -/
theorem strAppendAssoc (a b c : String) : a ++ b ++ c = a ++ (b ++ c) :=
  congrArg String.mk (List.append_assoc a.data b.data c.data)

/-- Fold a role/content list into a conversation with `AddMessage`. -/
def addAll (c : Conversation) (ps : List (String × String)) : Conversation :=
  ps.foldl (fun acc rc => acc.addMessage rc.1 rc.2) c

/-! ### C8 -/

/-- C8: messages appended with `AddMessage` come back from `GetMessages` in
the same order with the same role and content (appended after whatever was
already there), and `Clear` followed by `GetMessages` yields the empty
sequence.  The "independent copy" of the source is the slice copy in
`GetMessages`; in this pure model the returned list is a value, which is
exactly the independence the copy buys. -/
theorem C8_conversation_round_trip (c : Conversation) (ps : List (String × String)) :
    (addAll c ps).getMessages =
      c.getMessages ++ ps.map (fun rc => MMessage.mk rc.1 rc.2 "") ∧
    c.clear.getMessages = [] := by
  constructor
  · induction ps generalizing c with
    | nil => simp [addAll, Conversation.getMessages]
    | cons p ps ih =>
      have := ih (c.addMessage p.1 p.2)
      simp only [addAll, List.foldl_cons] at this ⊢
      rw [this]
      simp [Conversation.addMessage, Conversation.getMessages, List.append_assoc]
  · rfl

/-! ### C6 -/

/-- C6: ending processing (`setProcessing false`) clears the user's flag and
stamps the user's rate-limit record with the current time, while beginning
processing (`setProcessing true`) sets the flag and leaves the rate-limit
map entirely untouched. -/
theorem C6_end_processing_stamps_rate_limit (st : HState) (userID now : Int) :
    (setProcessing st userID false now).processing userID = false ∧
    (setProcessing st userID false now).lastMessageTime userID = some now ∧
    (setProcessing st userID true now).processing userID = true ∧
    (setProcessing st userID true now).lastMessageTime = st.lastMessageTime := by
  refine ⟨?_, ?_, ?_, ?_⟩ <;> simp [setProcessing]

/-! ### C5 -/

/-- C5: the rate-limit check (`checkRateLimit`, the source's `Allow`) is true
when the user has no record, and with a record it is true iff the elapsed
time since it is at least the threshold; a disallowed call changes nothing
(the whole handler state after the rate-limited dispatch branch is the input
state), and `updateRateLimit` (the source's `Record`) stamps the current time
for that user and nobody else. -/
theorem C5_rate_limiter_contract (st : HState) (userID now last : Int)
    (model : String) (remote : ChatRequest → Except String ChatResponse)
    (text : String) (other : Int) :
    (st.lastMessageTime userID = none → checkRateLimit st userID now = true) ∧
    (st.lastMessageTime userID = some last →
      (checkRateLimit st userID now = true ↔ st.rateLimit ≤ now - last)) ∧
    (checkRateLimit st userID now = false →
      (handleFreeTextMessage model remote st userID text now).hstate = st) ∧
    (updateRateLimit st userID now).lastMessageTime userID = some now ∧
    (other ≠ userID →
      (updateRateLimit st userID now).lastMessageTime other = st.lastMessageTime other) := by
  refine ⟨?_, ?_, ?_, ?_, ?_⟩
  · intro h; simp [checkRateLimit, h]
  · intro h; simp [checkRateLimit, h]
  · intro h; simp [handleFreeTextMessage, h]
  · simp [updateRateLimit]
  · intro h; simp [updateRateLimit, h]

/-- Witness for C5 at concrete inputs: a fresh user passes the check; with a
record at time 5, a threshold-1 check at time 10 passes iff `1 ≤ 5` (it
does); a failing check (record at 10, now 10) leaves the state untouched;
recording stamps the time. -/
theorem C5_rate_limiter_contract_witness :
    (checkRateLimit freshHState 1 0 = true) ∧
    (checkRateLimit { freshHState with lastMessageTime := fun _ => some 5 } 1 10 = true ↔
      (1 : Int) ≤ 10 - 5) ∧
    ((handleFreeTextMessage "m" okRemote
        { freshHState with lastMessageTime := fun _ => some 10 } 1 "hi" 10).hstate =
      { freshHState with lastMessageTime := fun _ => some 10 }) ∧
    (updateRateLimit freshHState 1 3).lastMessageTime 1 = some 3 ∧
    (updateRateLimit freshHState 1 3).lastMessageTime 2 = none := by
  refine ⟨?_, ?_, ?_, ?_, ?_⟩
  · exact (C5_rate_limiter_contract freshHState 1 0 0 "m" okRemote "hi" 2).1 rfl
  · exact (C5_rate_limiter_contract
      { freshHState with lastMessageTime := fun _ => some 5 } 1 10 5 "m" okRemote "hi" 2).2.1 rfl
  · exact (C5_rate_limiter_contract
      { freshHState with lastMessageTime := fun _ => some 10 } 1 10 10 "m" okRemote "hi" 2).2.2.1
      (by decide)
  · exact (C5_rate_limiter_contract freshHState 1 3 0 "m" okRemote "hi" 2).2.2.2.1
  · exact (C5_rate_limiter_contract freshHState 1 3 0 "m" okRemote "hi" 2).2.2.2.2 (by decide)

/-! ### C10 -/

/-- C10: for a configured `MaxMessageLength` of at least 3 bytes, an outgoing
text longer than the limit is sent as its first `MaxMessageLength - 3` bytes
followed by `"..."` — exactly `MaxMessageLength` bytes — and a text within
the limit is sent unchanged. -/
theorem C10_send_message_truncation (maxMessageLength : Nat) (text : List Nat)
    (h3 : 3 ≤ maxMessageLength) :
    (maxMessageLength < text.length →
      sendTruncate maxMessageLength text =
        text.take (maxMessageLength - 3) ++ [46, 46, 46] ∧
      (sendTruncate maxMessageLength text).length = maxMessageLength) ∧
    (text.length ≤ maxMessageLength → sendTruncate maxMessageLength text = text) := by
  constructor
  · intro h
    refine ⟨by simp [sendTruncate, h], ?_⟩
    simp only [sendTruncate, if_pos h, List.length_append, List.length_take]
    simp only [List.length_cons, List.length_nil]
    omega
  · intro h
    simp [sendTruncate, Nat.not_lt.mpr h]

/-- Witness for C10 at concrete inputs: limit 5, a 7-byte text is cut to
2 bytes plus the three dots (5 bytes total); a 4-byte text passes through. -/
theorem C10_send_message_truncation_witness :
    (sendTruncate 5 [10, 11, 12, 13, 14, 15, 16] = [10, 11, 46, 46, 46] ∧
      (sendTruncate 5 [10, 11, 12, 13, 14, 15, 16]).length = 5) ∧
    sendTruncate 5 [10, 11, 12, 13] = [10, 11, 12, 13] := by
  constructor
  · have h := (C10_send_message_truncation 5 [10, 11, 12, 13, 14, 15, 16]
      (by decide)).1 (by decide)
    simpa using h
  · exact (C10_send_message_truncation 5 [10, 11, 12, 13] (by decide)).2 (by decide)

/-! ### C4 -/

/-- The poem wizard after five dispatcher-recorded answers: each incoming
text is stored under the then-current step's key, exactly as
`handleWizardMessage` does. -/
def poemRun (userID t0 : Int) (v1 v2 v3 v4 v5 : String) : Wizard :=
  answerMsg (answerMsg (answerMsg (answerMsg (answerMsg
    (startWizard userID "poem" t0) v1) v2) v3) v4) v5

/-- C4: the poem wizard has exactly the 5 question keys
style, topic, mood, length, structure in that order; after 5 `SetAnswer`
calls recording answers under those keys the wizard is complete, and
`BuildPrompt` contains each of the five recorded answer values verbatim. -/
theorem C4_poem_wizard_five_steps (userID t0 : Int) (v1 v2 v3 v4 v5 : String) :
    ((getSteps "poem").getD []).map WStep.key =
      ["style", "topic", "mood", "length", "structure"] ∧
    (poemRun userID t0 v1 v2 v3 v4 v5).isComplete = true ∧
    ContainsStr (poemRun userID t0 v1 v2 v3 v4 v5).buildPrompt v1 ∧
    ContainsStr (poemRun userID t0 v1 v2 v3 v4 v5).buildPrompt v2 ∧
    ContainsStr (poemRun userID t0 v1 v2 v3 v4 v5).buildPrompt v3 ∧
    ContainsStr (poemRun userID t0 v1 v2 v3 v4 v5).buildPrompt v4 ∧
    ContainsStr (poemRun userID t0 v1 v2 v3 v4 v5).buildPrompt v5 := by
  have hbp : (poemRun userID t0 v1 v2 v3 v4 v5).buildPrompt =
      "Write a poem with the following details:\n\nStyle: " ++ v1 ++
      "\nTopic: " ++ v2 ++
      "\nMood: " ++ v3 ++
      "\nLength: " ++ v4 ++
      " lines\nStructure: " ++ v5 ++
      "\n\nPlease create a poem incorporating all these elements." := rfl
  refine ⟨rfl, rfl, ?_, ?_, ?_, ?_, ?_⟩
  · exact ⟨"Write a poem with the following details:\n\nStyle: ",
      "\nTopic: " ++ v2 ++ "\nMood: " ++ v3 ++ "\nLength: " ++ v4 ++
        " lines\nStructure: " ++ v5 ++
        "\n\nPlease create a poem incorporating all these elements.",
      by rw [hbp]; simp [strAppendAssoc]⟩
  · exact ⟨"Write a poem with the following details:\n\nStyle: " ++ v1 ++ "\nTopic: ",
      "\nMood: " ++ v3 ++ "\nLength: " ++ v4 ++ " lines\nStructure: " ++ v5 ++
        "\n\nPlease create a poem incorporating all these elements.",
      by rw [hbp]; simp [strAppendAssoc]⟩
  · exact ⟨"Write a poem with the following details:\n\nStyle: " ++ v1 ++ "\nTopic: " ++ v2 ++
        "\nMood: ",
      "\nLength: " ++ v4 ++ " lines\nStructure: " ++ v5 ++
        "\n\nPlease create a poem incorporating all these elements.",
      by rw [hbp]; simp [strAppendAssoc]⟩
  · exact ⟨"Write a poem with the following details:\n\nStyle: " ++ v1 ++ "\nTopic: " ++ v2 ++
        "\nMood: " ++ v3 ++ "\nLength: ",
      " lines\nStructure: " ++ v5 ++
        "\n\nPlease create a poem incorporating all these elements.",
      by rw [hbp]; simp [strAppendAssoc]⟩
  · exact ⟨"Write a poem with the following details:\n\nStyle: " ++ v1 ++ "\nTopic: " ++ v2 ++
        "\nMood: " ++ v3 ++ "\nLength: " ++ v4 ++ " lines\nStructure: ",
      "\n\nPlease create a poem incorporating all these elements.",
      by rw [hbp]; simp [strAppendAssoc]⟩

/-! ### C9 -/

/-- C9: any content-type string outside the seven defined tags — which the
`/create` handler happily accepts as a single-token argument and passes to
`StartWizard` — yields a session with no question steps: `GetSteps` returns
Go `nil` (the empty step list, `none` here), the fresh session is complete
already at step 0, the current question and key are empty, and `BuildPrompt`
is the empty string.  The token hypotheses say `ct` is a well-formed single
argument word: non-empty, a single whitespace-free field, and not starting
with `/` or `-` (otherwise `ParseFlags` would eat it as a flag). -/
theorem C9_unknown_content_type_empty_wizard (userID t0 now : Int) (m : Manager)
    (ct : String)
    (h7 : ct ∉ ["marketing", "email", "report", "script", "whitepaper", "story", "poem"])
    (hne : ct ≠ "")
    (hslash : goStartsWith ct "/" = false)
    (hdash : goStartsWith ct "-" = false)
    (htok : goFields ct = [ct]) :
    (parseFlags ct).2 = ct ∧
    (createCommandSessions m userID ct now).sessions userID =
      some (startWizard userID ct now) ∧
    getSteps ct = none ∧
    (startWizard userID ct t0).getStep = 0 ∧
    (startWizard userID ct t0).isComplete = true ∧
    (startWizard userID ct t0).getCurrentQuestion = "" ∧
    (startWizard userID ct t0).getCurrentKey = "" ∧
    (startWizard userID ct t0).buildPrompt = "" := by
  simp only [List.mem_cons, List.not_mem_nil, or_false, not_or] at h7
  obtain ⟨hm, he, hr, hs, hw, ho, hp⟩ := h7
  have hnone : getSteps ct = none := by
    simp [getSteps, hm, he, hr, hs, hw, ho, hp]
  have hpf : (parseFlags ct).2 = ct := by
    simp [parseFlags, goTrimStart, hslash, htok, parseFlagsLoop, hdash, flagValue,
      goLen, firstNonFlag]
  refine ⟨hpf, ?_, hnone, rfl, ?_, ?_, ?_, ?_⟩
  · simp [createCommandSessions, hpf, hne, Manager.startWizard, startWizard]
  · simp [Wizard.isComplete, startWizard, hnone]
  · simp [Wizard.getCurrentQuestion, startWizard, hnone]
  · simp [Wizard.getCurrentKey, startWizard, hnone]
  · simp [Wizard.buildPrompt, Wizard.getAnswers, startWizard, hm, he, hr, hs, hw, ho, hp]

/-- Witness for C9: the unrecognized content type "foo" as the argument of
`/create foo` on a fresh manager. -/
theorem C9_unknown_content_type_empty_wizard_witness :
    (parseFlags "foo").2 = "foo" ∧
    (createCommandSessions (newManager 600) 1 "foo" 0).sessions 1 =
      some (startWizard 1 "foo" 0) ∧
    getSteps "foo" = none ∧
    (startWizard 1 "foo" 0).getStep = 0 ∧
    (startWizard 1 "foo" 0).isComplete = true ∧
    (startWizard 1 "foo" 0).getCurrentQuestion = "" ∧
    (startWizard 1 "foo" 0).getCurrentKey = "" ∧
    (startWizard 1 "foo" 0).buildPrompt = "" :=
  C9_unknown_content_type_empty_wizard 1 0 0 (newManager 600) "foo"
    (by decide) (by decide) rfl rfl rfl

/-! ### C2 -/

/-- Every step list `getSteps` actually returns is non-empty (each of the
seven defined content types has at least five questions). -/
theorem getSteps_pos {ct : String} {steps : List WStep}
    (h : getSteps ct = some steps) : 0 < steps.length := by
  unfold getSteps at h
  repeat' split at h
  all_goals cases h <;> decide

/-- `answerMsg` preserves the content type and bumps the step by one. -/
theorem answerMsg_step (w : Wizard) (text : String) :
    (answerMsg w text).contentType = w.contentType ∧
    (answerMsg w text).step = w.step + 1 :=
  ⟨rfl, rfl⟩

/-- Invariant of the dispatcher wizard flow for a defined content type:
every reachable session state carries the started content type, its step
index never exceeds the number of steps, and a session still held by the
manager is strictly below it. -/
theorem sess_invariant {userID : Int} {ct : String} {t0 : Int}
    {steps : List WStep} (hct : getSteps ct = some steps)
    {w : Wizard} {live : Bool} (h : Sess userID ct t0 w live) :
    w.contentType = ct ∧ w.step ≤ steps.length ∧
      (live = true → w.step < steps.length) := by
  induction h with
  | start =>
    exact ⟨rfl, Nat.zero_le _, fun _ => getSteps_pos hct⟩
  | answer w text hw ih =>
    obtain ⟨hty, _, hlive⟩ := ih
    have hlt : w.step < steps.length := hlive rfl
    refine ⟨hty, hlt, ?_⟩
    intro hb
    have hcomp : (answerMsg w text).isComplete = false := by
      cases hc : (answerMsg w text).isComplete with
      | false => rfl
      | true => rw [hc] at hb; exact absurd hb (by decide)
    have : ¬ steps.length ≤ (answerMsg w text).step := by
      intro hle
      rw [show (answerMsg w text).isComplete =
            decide (steps.length ≤ (answerMsg w text).step) by
          simp [Wizard.isComplete, answerMsg, Wizard.setAnswer, hty, hct]] at hcomp
      simp [hle] at hcomp
    omega

/-- C2 (amended): over every wizard-session state reachable through the
dispatcher's wizard flow for a *defined* content type (one of the seven,
i.e. `getSteps` returns a step list), each `SetAnswer` increases the step
index by exactly one and nothing decreases it, the index stays within
`[0, totalSteps]`, reaching `totalSteps` makes `IsComplete()` true,
completeness is preserved by every further wizard operation, and a complete
state is no longer held by the manager (the session was removed the moment
it completed).  For an *unrecognized* content type the `[0, totalSteps]`
bound fails — see the counterexample theorem. -/
theorem C2_wizard_step_invariants (userID : Int) (ct : String) (t0 : Int)
    (steps : List WStep) (text : String) (hct : getSteps ct = some steps)
    (w : Wizard) (live : Bool) (h : Sess userID ct t0 w live) :
    (answerMsg w text).getStep = w.getStep + 1 ∧
    w.getStep ≤ steps.length ∧
    (w.getStep = steps.length → w.isComplete = true) ∧
    (w.isComplete = true → (answerMsg w text).isComplete = true) ∧
    (w.isComplete = true → live = false) := by
  obtain ⟨hty, hle, hlive⟩ := sess_invariant hct h
  have hcompChar : ∀ v : Wizard, v.contentType = ct →
      (v.isComplete = true ↔ steps.length ≤ v.step) := by
    intro v hv
    simp [Wizard.isComplete, hv, hct]
  refine ⟨rfl, hle, ?_, ?_, ?_⟩
  · intro hstep
    exact (hcompChar w hty).2 (le_of_eq hstep.symm)
  · intro hc
    have : steps.length ≤ w.step := (hcompChar w hty).1 hc
    refine (hcompChar (answerMsg w text) hty).2 ?_
    simp only [answerMsg, Wizard.setAnswer]
    omega
  · intro hc
    have hlen : steps.length ≤ w.step := (hcompChar w hty).1 hc
    cases hb : live with
    | false => rfl
    | true => exact absurd (hlive hb) (by omega)

/-- Witness for C2 at a concrete input: the freshly started poem session. -/
theorem C2_wizard_step_invariants_witness :
    (startWizard 1 "poem" 0).getStep ≤ getPoemSteps.length :=
  (C2_wizard_step_invariants 1 "poem" 0 getPoemSteps "haiku" rfl
    (startWizard 1 "poem" 0) true Sess.start).2.1

/-- C2 counterexample, refuting the claim as stated: the dispatcher's
wizard flow reaches (via `/create foo` followed by one free-text answer) a
session state of the unrecognized content type "foo" whose step index is 1,
strictly above that type's total step count 0 — outside `[0, totalSteps]`. -/
theorem C2_step_bound_counterexample :
    Sess 1 "foo" 0 (answerMsg (startWizard 1 "foo" 0) "x") false ∧
    (answerMsg (startWizard 1 "foo" 0) "x").getStep = 1 ∧
    ((getSteps "foo").getD []).length = 0 := by
  refine ⟨?_, rfl, rfl⟩
  exact Sess.answer (startWizard 1 "foo" 0) "x" Sess.start

/-! ### C3 -/

/-- A manager holding one session for user 1, started at time 0, with the
dispatcher's 600-unit timeout. -/
def expiryManager : Manager :=
  { sessions := fun u => if u = 1 then some (startWizard 1 "poem" 0) else none
    timeout := 600 }

/-- C3 (code bug): at or before `T + D` the session is returned with
`found = true`, and a query strictly later than `T + D` does delete the
session — but instead of returning not-found, `GetWizard` then dies with the
fatal runtime error `sync: RUnlock of unlocked RWMutex`: the expired branch
explicitly releases the read lock before taking the write lock, and the
deferred `RUnlock` at function exit fires on a mutex that is no longer
read-locked, which Go's `sync` package turns into an unrecoverable fatal
error before the computed `(nil, false)` reaches the caller.  The last
conjunct shows what the subsequent-query behaviour would be had the process
survived the deletion. -/
theorem C3_getWizard_expiry_is_fatal :
    (expiryManager.getWizard 1 600).1 =
      GoResult.ok (some (startWizard 1 "poem" 0), true) ∧
    (expiryManager.getWizard 1 600).2.sessions 1 = some (startWizard 1 "poem" 0) ∧
    (expiryManager.getWizard 1 601).1 =
      GoResult.fatal "sync: RUnlock of unlocked RWMutex" ∧
    (expiryManager.getWizard 1 601).2.sessions 1 = none ∧
    ((expiryManager.getWizard 1 601).2.getWizard 1 601).1 =
      GoResult.ok (none, false) :=
  ⟨rfl, rfl, rfl, rfl, rfl⟩

/-! ### C1 -/

/-- The free-text dispatch of a fresh user 1 sending "hello" (all guards
pass), against a transport that would answer successfully. -/
def helloDispatch : DispatchOutcome :=
  handleFreeTextMessage "abab5.5-chat" okRemote freshHState 1 "hello" 0

/-- C1 (code bug): a fresh user's first free-text message "hello", with all
guards passing.  The dispatcher's first `Chat` call hands the text as an
explicit message list, which *bypasses* the conversation store (despite the
source comment "Add user message to conversation"), so afterwards the user's
stored history is still empty — the text was never appended; the only
request ever issued is that throwaway one (its response and error are
discarded), the history-based second `Chat` call fails with
"no messages provided" before issuing anything, no reply is sent (the user
gets the error apology), and nothing is appended to history. -/
theorem C1_user_text_never_reaches_conversation :
    helloDispatch.hstate.client 1 = some { messages := [], system := "" } ∧
    helloDispatch.requests =
      [{ model := "abab5.5-chat"
         messages := [{ role := "user", content := "hello", name := "" }]
         temperature := 7/10, maxTokens := 2048, topP := 0, stream := false }] ∧
    helloDispatch.result = Except.error "no messages provided" ∧
    helloDispatch.sent =
      ["🤔 Thinking...", "Sorry, I encountered an error: no messages provided"] :=
  ⟨rfl, rfl, rfl, rfl⟩

/-! ### C7 -/

/-- C7: `Chat` fails with "no messages provided" — before issuing any
request — when no explicit messages are supplied and the user's stored
conversation is empty; otherwise, whenever the assembled message list is
non-empty, it issues exactly one request whose temperature is the supplied
value when positive and 0.7 otherwise, and whose max-tokens is the supplied
value when positive and 2048 otherwise (top-p likewise kept only when
positive, left at the zero value otherwise). -/
theorem C7_chat_empty_error_and_defaults (model : String)
    (remote : ChatRequest → Except String ChatResponse)
    (st : ConversationMap) (p : ChatParams) :
    (p.messages = none → getConversation st p.userID = [] →
      (clientChat model remote st p).result = Except.error "no messages provided" ∧
      (clientChat model remote st p).requests = []) ∧
    ((assembleMessages st p).1 ≠ [] →
      (clientChat model remote st p).requests =
        [{ model := model
           messages := (assembleMessages st p).1
           temperature := if 0 < p.temperature then p.temperature else 7/10
           maxTokens := if 0 < p.maxTokens then p.maxTokens else 2048
           topP := if 0 < p.topP then p.topP else 0
           stream := false }]) := by
  constructor
  · intro hm hconv
    have hasm : (assembleMessages st p).1 = [] := by
      unfold assembleMessages
      rw [hm]
      cases hst : st p.userID with
      | none =>
        simp only [getOrCreateConversation, hst]
        split_ifs <;>
          simp [Conversation.setSystem, Conversation.clear, Conversation.getMessages]
      | some c =>
        simp only [getConversation, hst, Conversation.getMessages] at hconv
        simp only [getOrCreateConversation, hst]
        split_ifs <;>
          simp [Conversation.setSystem, Conversation.clear, Conversation.getMessages, hconv]
    constructor <;> simp [clientChat, hasm]
  · intro h
    have hne : (assembleMessages st p).1.isEmpty = false := by
      cases hx : (assembleMessages st p).1 with
      | nil => exact absurd hx h
      | cons a l => rfl
    simp only [clientChat]
    rw [if_neg (by simp [hne])]
    cases remote _ <;> rfl

/-- Witness for C7 at concrete inputs: a fresh client with no stored
conversation and no explicit messages errors without a request; explicit
messages with temperature 5 and max-tokens 7 yield exactly one request with
those values kept. -/
theorem C7_chat_empty_error_and_defaults_witness :
    ((clientChat "m" okRemote emptyConvMap
        { userID := 1, messages := none, temperature := 0, maxTokens := 0
          topP := 0, clearConv := false, systemPrompt := "" }).result =
        Except.error "no messages provided" ∧
      (clientChat "m" okRemote emptyConvMap
        { userID := 1, messages := none, temperature := 0, maxTokens := 0
          topP := 0, clearConv := false, systemPrompt := "" }).requests = []) ∧
    (clientChat "m" okRemote emptyConvMap
        { userID := 1, messages := some [⟨"user", "hi", ""⟩], temperature := 5
          maxTokens := 7, topP := 0, clearConv := false, systemPrompt := "" }).requests =
      [{ model := "m"
         messages := (assembleMessages emptyConvMap
           { userID := 1, messages := some [⟨"user", "hi", ""⟩], temperature := 5
             maxTokens := 7, topP := 0, clearConv := false, systemPrompt := "" }).1
         temperature := if 0 < (5 : ℚ) then (5 : ℚ) else 7/10
         maxTokens := if 0 < (7 : Int) then (7 : Int) else 2048
         topP := if 0 < (0 : ℚ) then (0 : ℚ) else 0
         stream := false }] := by
  refine ⟨C7_chat_empty_error_and_defaults "m" okRemote emptyConvMap _ |>.1 rfl rfl, ?_⟩
  exact C7_chat_empty_error_and_defaults "m" okRemote emptyConvMap _ |>.2 (by decide)
